import Mathlib

/-!
Verification development for src/src/widgets/PopupMenuTable.h of the
audacity repository.  The header defines PopupMenuTableEntry (a tagged
menu-entry record), PopupMenuTable (which owns a lazily populated ordered
sequence of entries), and a family of C preprocessor expansions
(POPUP_MENU_ITEM and friends) whose bodies push entries onto the table's
mContents vector.

Shallow embedding conventions:
  * TranslatableString and Identifier are modelled as String
    (the default-constructed TranslatableString is the empty string);
  * wxCommandEventFunction pointers and PopupMenuTable pointers are
    modelled as Option Nat, with none standing for nullptr and some n
    for a concrete pointer identity;
  * std::vector of entries is a List; push_back is List.concat;
  * the virtual Populate() of a subclass written with the declarative
    scheme of this header only pushes entries onto mContents, so its
    effect is modelled as a function on the contents list.
-/

namespace PopupMenu

/-- The tag enum PopupMenuTableEntry::Type with its six constants. -/
inductive EntryType
  | Item
  | RadioItem
  | CheckItem
  | Separator
  | SubMenu
  | Invalid
  deriving DecidableEq

/-- struct PopupMenuTableEntry: a kind tag, a numeric identifier, a
localizable caption, an optional callback pointer and an optional
subtable pointer. -/
structure PopupMenuTableEntry where
  type : EntryType
  id : Int
  caption : String
  func : Option Nat
  subTable : Option Nat
  deriving DecidableEq

namespace PopupMenuTableEntry

/-- The constructor
PopupMenuTableEntry(type_, id_, caption_, func_, subTable_), whose member
initializer list copies each argument into the field of the same name. -/
def make (type_ : EntryType) (id_ : Int) (caption_ : String)
    (func_ : Option Nat) (subTable_ : Option Nat) : PopupMenuTableEntry :=
  { type := type_, id := id_, caption := caption_
  , func := func_, subTable := subTable_ }

/-- bool IsItem() const: type == Item || type == RadioItem || type == CheckItem -/
def IsItem (e : PopupMenuTableEntry) : Bool :=
  e.type == EntryType.Item || e.type == EntryType.RadioItem
    || e.type == EntryType.CheckItem

/-- bool IsSubMenu() const: type == SubMenu -/
def IsSubMenu (e : PopupMenuTableEntry) : Bool :=
  e.type == EntryType.SubMenu

/-- bool IsValid() const: type != Invalid -/
def IsValid (e : PopupMenuTableEntry) : Bool :=
  e.type != EntryType.Invalid

end PopupMenuTableEntry

/-- The Identifier argument of the PopupMenuTable constructor. -/
abbrev Identifier := String

/-- class PopupMenuTable: owns the mutable entry sequence mContents and the
caption mCaption.  The subclass's virtual Populate(), written with the
declarative scheme of this header, only pushes entries onto mContents, so
it is carried as a function populateBody on the contents list. -/
structure PopupMenuTable where
  populateBody : List PopupMenuTableEntry → List PopupMenuTableEntry
  mContents : List PopupMenuTableEntry
  mCaption : String

namespace PopupMenuTable

/-- The constructor PopupMenuTable(id, caption): mCaption{caption}; the
Identifier parameter id is not stored or read, and mContents is
default-initialized empty.  (body is the subclass's Populate override.) -/
def make (id : Identifier) (caption : String)
    (body : List PopupMenuTableEntry → List PopupMenuTableEntry) :
    PopupMenuTable :=
  { populateBody := body, mContents := [], mCaption := caption }

/-- Running the virtual Populate(): it updates mContents by the body. -/
def Populate (t : PopupMenuTable) : PopupMenuTable :=
  { t with mContents := t.populateBody t.mContents }

/-- const Entries and Get(): if (mContents.empty()) Populate(); return
mContents.  Modelled with explicit state passing: the result pairs the
table after the call with the returned sequence. -/
def Get (t : PopupMenuTable) : PopupMenuTable × List PopupMenuTableEntry :=
  if t.mContents.isEmpty then
    let t2 := t.Populate
    (t2, t2.mContents)
  else
    (t, t.mContents)

/-- const TranslatableString and Caption() const: return mCaption. -/
def Caption (t : PopupMenuTable) : String :=
  t.mCaption

/-- void Clear(): mContents.clear(). -/
def Clear (t : PopupMenuTable) : PopupMenuTable :=
  { t with mContents := [] }

end PopupMenuTable

/-- One entry-appending invocation inside a Populate() body:
POPUP_MENU_ITEM, POPUP_MENU_RADIO_ITEM, POPUP_MENU_CHECK_ITEM,
POPUP_MENU_SUB_MENU, BEGIN_POPUP_MENU_SECTION.  For subMenu, classCaption
is classname::Instance().Caption() and classInstance is the pointer
identity of classname::Instance(). -/
inductive MenuDecl
  | item (stringId : String) (id : Int) (string : String) (memFn : Nat)
  | radioItem (stringId : String) (id : Int) (string : String) (memFn : Nat)
  | checkItem (stringId : String) (id : Int) (string : String) (memFn : Nat)
  | subMenu (stringId : String) (classCaption : String) (classInstance : Nat)
  | beginSection (name : String)
  deriving DecidableEq

/-- The entry built by the POPUP_MENU_APPEND expansion of one invocation. -/
def MenuDecl.entry : MenuDecl → PopupMenuTableEntry
  | .item _ id s f => .make EntryType.Item id s (some f) none
  | .radioItem _ id s f => .make EntryType.RadioItem id s (some f) none
  | .checkItem _ id s f => .make EntryType.CheckItem id s (some f) none
  | .subMenu _ cap inst => .make EntryType.SubMenu (-1) cap none (some inst)
  | .beginSection _ => .make EntryType.Separator (-1) "" none none

/-- POPUP_MENU_APPEND(...): mContents.push_back(Entry{ ... }). -/
def pushDecl (cs : List PopupMenuTableEntry) (d : MenuDecl) :
    List PopupMenuTableEntry :=
  cs.concat d.entry

/-- A sequence of invocations run in order over the contents list. -/
def runDecls (cs : List PopupMenuTableEntry) (ds : List MenuDecl) :
    List PopupMenuTableEntry :=
  ds.foldl pushDecl cs

/-- The sentinel pushed by END_POPUP_MENU():
Entry { Invalid, -1, {}, nullptr, nullptr }. -/
def sentinelEntry : PopupMenuTableEntry :=
  .make EntryType.Invalid (-1) "" none none

/-- The Populate() body generated by
BEGIN_POPUP_MENU ... invocations ... END_POPUP_MENU. -/
def declBody (ds : List MenuDecl) :
    List PopupMenuTableEntry → List PopupMenuTableEntry :=
  fun cs => (runDecls cs ds).concat sentinelEntry

/-- A table whose Populate() override is written with the declarative
scheme of this header. -/
def mkDeclTable (id : Identifier) (caption : String) (ds : List MenuDecl) :
    PopupMenuTable :=
  PopupMenuTable.make id caption (declBody ds)

/-- Modelled from the spec: the native menu object built by BuildMenu,
holding the flat list of items added against it.  The bodies of
PopupMenuTable::BuildMenu and PopupMenuTable::ExtendMenu live in
PopupMenuTable.cpp, which is not among the sources; the spec describes
them as (b) build-menu, folding the entry list into the menu, and
(c) extend-menu, appending a second table's entries to an already-built
menu. -/
structure Menu where
  items : List PopupMenuTableEntry
  deriving DecidableEq

/-- Modelled from the spec: build-menu folds the table's entry list into
calls against a fresh native menu. -/
def BuildMenu (t : PopupMenuTable) : Menu × PopupMenuTable :=
  ({ items := (t.Get).2 }, (t.Get).1)

/-- Modelled from the spec: extend-menu appends a second table's entries
to an already-built menu. -/
def ExtendMenu (m : Menu) (other : PopupMenuTable) : Menu × PopupMenuTable :=
  ({ items := m.items ++ (other.Get).2 }, (other.Get).1)

/-- The operations of the table observable from outside a Populate body. -/
inductive TableOp
  | get
  | clear
  deriving DecidableEq

/-- Effect of one operation on the table state. -/
def applyOp (t : PopupMenuTable) : TableOp → PopupMenuTable
  | .get => (t.Get).1
  | .clear => t.Clear

/-- Effect of a sequence of operations on the table state. -/
def applyOps (t : PopupMenuTable) (ops : List TableOp) : PopupMenuTable :=
  ops.foldl applyOp t

/-- A small concrete declarative table used to instantiate theorems. -/
def sampleDecls : List MenuDecl :=
  [ MenuDecl.item "Cut" 100 "Cu&t" 1
  , MenuDecl.beginSection "extra"
  , MenuDecl.checkItem "Chk" 101 "Check" 2 ]

/-- A concrete table instance built from sampleDecls. -/
def T0 : PopupMenuTable :=
  mkDeclTable "sample" "sample caption" sampleDecls

/-! ## Helper lemmas shared by the claim theorems -/

/-- When mContents is empty, Get() runs Populate() and returns the freshly
built sequence. -/
theorem get_of_empty (t : PopupMenuTable) (h : t.mContents = []) :
    t.Get = (t.Populate, t.Populate.mContents) := by
  simp [PopupMenuTable.Get, h]

/-- When mContents is nonempty, Get() returns it unchanged without calling
Populate(). -/
theorem get_of_nonempty (t : PopupMenuTable) (h : t.mContents ≠ []) :
    t.Get = (t, t.mContents) := by
  simp [PopupMenuTable.Get, h]

/-- Running a list of entry-appending invocations appends their entries in
declaration order. -/
theorem runDecls_eq (ds : List MenuDecl) (cs : List PopupMenuTableEntry) :
    runDecls cs ds = cs ++ ds.map MenuDecl.entry := by
  induction ds generalizing cs with
  | nil => simp [runDecls]
  | cons d ds ih =>
    simp [runDecls, List.foldl_cons] at *
    simpa [pushDecl] using ih (cs.concat d.entry)

/-- A declaratively populated table, first queried, yields the declared
entries in order followed by the sentinel. -/
theorem mkDeclTable_get (id : Identifier) (caption : String)
    (ds : List MenuDecl) :
    ((mkDeclTable id caption ds).Get).2
      = ds.map MenuDecl.entry ++ [sentinelEntry] := by
  have h : (mkDeclTable id caption ds).mContents = [] := rfl
  rw [get_of_empty _ h]
  show ((mkDeclTable id caption ds).populateBody []) = _
  simp [mkDeclTable, PopupMenuTable.make, declBody, runDecls_eq]

/-- One table operation never changes mCaption. -/
theorem applyOp_caption (t : PopupMenuTable) (op : TableOp) :
    (applyOp t op).mCaption = t.mCaption := by
  cases op with
  | get =>
    by_cases h : t.mContents = []
    · rw [applyOp, get_of_empty t h]; rfl
    · rw [applyOp, get_of_nonempty t h]
  | clear => rfl

/-! ## Claim theorems -/

/-- C1: Get() invokes Populate() exactly when mContents is empty, and a
later Get() on the resulting table, while its sequence is nonempty,
returns the same already-built sequence and the same table, without
invoking Populate() again. -/
theorem get_populates_lazily_once (t : PopupMenuTable) :
    (t.Get = if t.mContents.isEmpty then (t.Populate, t.Populate.mContents)
             else (t, t.mContents)) ∧
    ((t.Get).1.mContents.isEmpty = false → (t.Get).1.Get = t.Get) := by
  constructor
  · by_cases h : t.mContents = []
    · rw [get_of_empty t h]; simp [h]
    · rw [get_of_nonempty t h]; simp [h]
  · intro h
    by_cases h0 : t.mContents = []
    · rw [get_of_empty t h0] at h ⊢
      simp only at h ⊢
      rw [get_of_nonempty _ (by simpa using h)]
    · rw [get_of_nonempty t h0] at h ⊢
      simp only at h ⊢
      rw [get_of_nonempty t h0]

/-- Witness for C1 at the concrete table T0: its first Get() leaves a
nonempty sequence, and a second Get() returns the same result. -/
theorem get_populates_lazily_once_wit :
    ((T0.Get).1.mContents.isEmpty = false) ∧ (T0.Get).1.Get = T0.Get :=
  ⟨by decide, (get_populates_lazily_once T0).2 (by decide)⟩

/-- C2: each entry-appending invocation pushes exactly one entry at the end
of mContents, a sequence of invocations appends their entries in
declaration order, and consequently Get() on a declaratively populated
table returns the entries in declaration order (followed by the
END_POPUP_MENU sentinel). -/
theorem decls_append_one_entry_in_order :
    (∀ (cs : List PopupMenuTableEntry) (d : MenuDecl),
        pushDecl cs d = cs ++ [d.entry]) ∧
    (∀ (cs : List PopupMenuTableEntry) (ds : List MenuDecl),
        runDecls cs ds = cs ++ ds.map MenuDecl.entry) ∧
    (∀ (id : Identifier) (caption : String) (ds : List MenuDecl),
        ((mkDeclTable id caption ds).Get).2
          = ds.map MenuDecl.entry ++ [sentinelEntry]) := by
  refine ⟨?_, ?_, ?_⟩
  · intro cs d; simp [pushDecl]
  · intro cs ds; exact runDecls_eq ds cs
  · intro id caption ds; exact mkDeclTable_get id caption ds

/-- C3: ExtendMenu(menu, otherTable) appends otherTable's entries after all
entries already present in the menu, and the previously added entries,
in their original order, are an unchanged prefix of the result. -/
theorem extendMenu_appends_after (m : Menu) (t : PopupMenuTable) :
    (ExtendMenu m t).1.items = m.items ++ (t.Get).2 ∧
    ((ExtendMenu m t).1.items.take m.items.length = m.items) := by
  refine ⟨rfl, ?_⟩
  show (m.items ++ (t.Get).2).take m.items.length = m.items
  exact List.take_left m.items _

/-- C4: an entry's kind is one of the six tags, and the classifier
predicates decide the tags exactly: IsItem iff Item, RadioItem or
CheckItem; IsSubMenu iff SubMenu; IsValid iff not Invalid. -/
theorem entry_classifiers_exact (e : PopupMenuTableEntry) :
    (e.type = EntryType.Item ∨ e.type = EntryType.RadioItem ∨
     e.type = EntryType.CheckItem ∨ e.type = EntryType.Separator ∨
     e.type = EntryType.SubMenu ∨ e.type = EntryType.Invalid) ∧
    (e.IsItem = true ↔
      (e.type = EntryType.Item ∨ e.type = EntryType.RadioItem ∨
       e.type = EntryType.CheckItem)) ∧
    (e.IsSubMenu = true ↔ e.type = EntryType.SubMenu) ∧
    (e.IsValid = true ↔ e.type ≠ EntryType.Invalid) := by
  obtain ⟨ty, i, c, f, s⟩ := e
  cases ty <;>
    simp [PopupMenuTableEntry.IsItem, PopupMenuTableEntry.IsSubMenu,
      PopupMenuTableEntry.IsValid]

/-- C5: the entry constructor stores each of its five arguments unchanged
into the field of the same name. -/
theorem entry_ctor_stores_arguments (ty : EntryType) (i : Int) (c : String)
    (f s : Option Nat) :
    (PopupMenuTableEntry.make ty i c f s).type = ty ∧
    (PopupMenuTableEntry.make ty i c f s).id = i ∧
    (PopupMenuTableEntry.make ty i c f s).caption = c ∧
    (PopupMenuTableEntry.make ty i c f s).func = f ∧
    (PopupMenuTableEntry.make ty i c f s).subTable = s :=
  ⟨rfl, rfl, rfl, rfl, rfl⟩

/-- C6: no operation mutates an individual entry in place: Get() either
leaves the sequence element-wise unchanged or (only from the empty state)
rebuilds it whole via Populate(); Clear() removes all entries at once;
and Get() after Clear() re-runs Populate() on the cleared table, which is
the whole-table rebuild. -/
theorem entries_not_individually_mutated (t : PopupMenuTable) :
    ((t.Get).1.mContents = t.mContents ∨
      (t.mContents = [] ∧ (t.Get).1 = t.Populate)) ∧
    t.Clear.mContents = [] ∧
    t.Clear.Get = (t.Clear.Populate, t.Clear.Populate.mContents) := by
  refine ⟨?_, rfl, get_of_empty t.Clear rfl⟩
  by_cases h : t.mContents = []
  · right; exact ⟨h, by rw [get_of_empty t h]⟩
  · left; rw [get_of_nonempty t h]

/-- C7: Get(), Caption() and Clear() are total and have no failure branch:
on every table state they return a plain result - Get() always yields the
(possibly freshly populated) contents of the resulting table, Caption()
always yields mCaption, and Clear() always yields the emptied table. -/
theorem operations_total_no_error (t : PopupMenuTable) :
    (t.Get).2 = (t.Get).1.mContents ∧
    t.Caption = t.mCaption ∧
    t.Clear.mContents = [] := by
  refine ⟨?_, rfl, rfl⟩
  by_cases h : t.mContents = []
  · rw [get_of_empty t h]
  · rw [get_of_nonempty t h]

/-- C8: a Populate() body written with the declarative scheme leaves
mContents nonempty and terminated by the sentinel Invalid entry with
id -1, empty caption, null callback and null subtable; the sentinel fails
IsValid(), and everything before it is exactly the declared entries in
declaration order. -/
theorem decl_table_sentinel_terminated (id : Identifier) (caption : String)
    (ds : List MenuDecl) :
    ((mkDeclTable id caption ds).Get).2.isEmpty = false ∧
    ((mkDeclTable id caption ds).Get).2.getLast? = some sentinelEntry ∧
    sentinelEntry.type = EntryType.Invalid ∧
    sentinelEntry.id = -1 ∧
    sentinelEntry.caption = "" ∧
    sentinelEntry.func = none ∧
    sentinelEntry.subTable = none ∧
    sentinelEntry.IsValid = false ∧
    ((mkDeclTable id caption ds).Get).2.dropLast = ds.map MenuDecl.entry := by
  rw [mkDeclTable_get id caption ds]
  refine ⟨?_, ?_, rfl, rfl, rfl, rfl, rfl, rfl, ?_⟩
  · simp
  · simp
  · simp

/-- C9: the PopupMenuTable constructor ignores its Identifier parameter:
two tables constructed with different identifiers but the same caption
(and the same Populate override) are equal, hence have the same Caption()
and the same initially empty mContents. -/
theorem ctor_ignores_identifier (id1 id2 : Identifier) (c : String)
    (b : List PopupMenuTableEntry → List PopupMenuTableEntry) :
    PopupMenuTable.make id1 c b = PopupMenuTable.make id2 c b ∧
    (PopupMenuTable.make id1 c b).Caption
      = (PopupMenuTable.make id2 c b).Caption ∧
    (PopupMenuTable.make id1 c b).mContents = [] :=
  ⟨rfl, rfl, rfl⟩

/-- C10: Caption() always returns the caption supplied at construction:
no sequence of Get() and Clear() calls (Get possibly triggering a
Populate() that only pushes to mContents) changes mCaption. -/
theorem caption_stable_under_ops (t : PopupMenuTable) (ops : List TableOp) :
    (applyOps t ops).Caption = t.Caption := by
  induction ops generalizing t with
  | nil => rfl
  | cons op rest ih =>
    show (applyOps (applyOp t op) rest).Caption = t.Caption
    rw [ih (applyOp t op)]
    exact applyOp_caption t op

end PopupMenu
